import Mathlib

set_option linter.unusedVariables false

/-!
Shallow embedding of `src/paramiko/server.py`: the `ServerInterface`
decision callbacks and the `SubsystemHandler` session lifecycle, together
with theorems settling the specification claims about them.
-/

namespace Paramiko

/-- Exceptions are modelled by their description string (Python `str(e)`). -/
abbrev Exn := String

/-- Modelled from the spec: the authentication outcome constants
`AUTH_SUCCESSFUL`, `AUTH_PARTIALLY_SUCCESSFUL`, `AUTH_FAILED` are imported
from module `common`, which is not under `src/`; the spec describes
AuthOutcome as the enumeration FAILED / SUCCESSFUL / PARTIALLY_SUCCESSFUL. -/
inductive AuthOutcome where
  | AUTH_SUCCESSFUL
  | AUTH_PARTIALLY_SUCCESSFUL
  | AUTH_FAILED
deriving DecidableEq, Repr

/-- Modelled from the spec: the channel-open outcome constants are imported
from module `common`, which is not under `src/`; the spec describes
ChannelOpenOutcome as the enumeration SUCCESS / ADMINISTRATIVELY_PROHIBITED /
CONNECT_FAILED / UNKNOWN_CHANNEL_TYPE / RESOURCE_SHORTAGE. -/
inductive ChannelOpenOutcome where
  | OPEN_SUCCEEDED
  | OPEN_FAILED_ADMINISTRATIVELY_PROHIBITED
  | OPEN_FAILED_CONNECT_FAILED
  | OPEN_FAILED_UNKNOWN_CHANNEL_TYPE
  | OPEN_FAILED_RESOURCE_SHORTAGE
deriving DecidableEq, Repr

/-- An opaque, already-parsed public-key object (`PKey`); the key material
itself is never inspected by this core. -/
structure PKey where
  material : List Nat
deriving DecidableEq, Repr

/-- Channels are identified by their transport-assigned numeric id. -/
abbrev ChannelId := Nat

namespace ServerInterface

/-- `ServerInterface.check_channel_request` default body (server.py line 83):
`return OPEN_FAILED_ADMINISTRATIVELY_PROHIBITED`. -/
def check_channel_request (kind : String) (chanid : ChannelId) :
    ChannelOpenOutcome :=
  ChannelOpenOutcome.OPEN_FAILED_ADMINISTRATIVELY_PROHIBITED

/-- `ServerInterface.get_allowed_auths` default body (server.py line 102):
`return 'password'`. -/
def get_allowed_auths (username : String) : String :=
  "password"

/-- `ServerInterface.check_auth_none` default body (server.py line 121):
`return AUTH_FAILED`. -/
def check_auth_none (username : String) : AuthOutcome :=
  AuthOutcome.AUTH_FAILED

/-- `ServerInterface.check_auth_password` default body (server.py line 148):
`return AUTH_FAILED`. -/
def check_auth_password (username : String) (password : String) : AuthOutcome :=
  AuthOutcome.AUTH_FAILED

/-- `ServerInterface.check_auth_publickey` default body (server.py line 177):
`return AUTH_FAILED`. -/
def check_auth_publickey (username : String) (key : PKey) : AuthOutcome :=
  AuthOutcome.AUTH_FAILED

/-- `ServerInterface.check_channel_pty_request` default body (server.py
line 209): `return False`. -/
def check_channel_pty_request (channel : ChannelId) (term : String)
    (width height pixelwidth pixelheight : Nat) (modes : String) : Bool :=
  false

/-- `ServerInterface.check_channel_shell_request` default body (server.py
line 226): `return False`. -/
def check_channel_shell_request (channel : ChannelId) : Bool :=
  false

/-- `ServerInterface.check_channel_window_change_request` default body
(server.py line 280): `return False`. -/
def check_channel_window_change_request (channel : ChannelId)
    (width height pixelwidth pixelheight : Nat) : Bool :=
  false

end ServerInterface

/-- Log levels used by `server.py` (`DEBUG`, `ERROR` from `common`). -/
inductive LogLevel where
  | DEBUG
  | ERROR
deriving DecidableEq, Repr

/-- An observable side effect of running a subsystem session: a log entry
written through `transport._log`, or a `channel.close()` call on a channel. -/
inductive Event where
  | log (lvl : LogLevel) (msg : String)
  | close (chan : ChannelId)
deriving DecidableEq, Repr

/-- Number of `channel.close()` calls on channel `c` in an event trace. -/
def closeCount (evs : List Event) (c : ChannelId) : Nat :=
  (evs.filter (fun e => e = Event.close c)).length

/-- The transport collaborator, as seen by a session: a logging sink.
`logExn lvl msg = none` means the `_log` call succeeds (and writes the
entry); `some e` means the call raises exception `e` (and writes nothing).
The spec models the sink as infallible (`okTransport` below); the general
form lets claims that quantify over logging faults be stated. -/
structure Transport where
  logExn : LogLevel → String → Option Exn

/-- The transport whose logging sink never faults: the behaviour the spec
assigns to `transport.log(level, message)`. -/
def okTransport : Transport :=
  { logExn := fun _ _ => none }

/-- One `transport._log(lvl, msg)` call: the events it emits and the
exception it raises, if any. -/
def Transport.logCall (t : Transport) (lvl : LogLevel) (msg : String) :
    List Event × Option Exn :=
  match t.logExn lvl msg with
  | none => ([Event.log lvl msg], none)
  | some e => ([], some e)

/-- Behaviour of a user-supplied `start_subsystem` body for one session:
the events it emits (logs it writes, closes it performs) followed by either
normal return (`exn = none`) or a raised exception (`exn = some e`). -/
structure BodyBehavior where
  events : List Event
  exn : Option Exn
deriving DecidableEq, Repr

/-- A `SubsystemHandler` as constructed by `__init__` (server.py lines
301-318): it captures the channel, the transport back-reference
(`channel.get_transport()`, kept implicit here: the transport is passed to
`run`), and the subsystem name.  `body` is the behaviour of the
user-supplied `start_subsystem` override; `finishEvents`/`finishExn` is the
behaviour of the (overridable) `finish_subsystem`, whose default
(server.py line 367) closes the channel and raises nothing. -/
structure SubsystemHandler where
  chan : ChannelId
  name : String
  body : BodyBehavior
  finishEvents : List Event := [Event.close chan]
  finishExn : Option Exn := none
deriving DecidableEq, Repr

/-- The `'Starting handler for subsystem %s' % name` message of
server.py line 321. -/
def startMsg (name : String) : String :=
  "Starting handler for subsystem " ++ name

/-- The `'Exception in subsystem handler for "%s": %s' % (name, str(e))`
message of server.py lines 324-325. -/
def errMsg (name : String) (e : Exn) : String :=
  "Exception in subsystem handler for \"" ++ name ++ "\": " ++ e

/-- Modelled from the spec: `util.tb_strings()` (module `util`, absent from
`src/`) renders the traceback of the current exception as text; its exact
content is irrelevant to the claims, only that it is the payload of the
second ERROR entry. -/
def tb_strings : String :=
  "Traceback (most recent call last)"

/-- Outcome of one execution of `SubsystemHandler._run` on the session's
thread: the trace of events it emitted, the exception that escaped `_run`
(if any), and whether the `finish_subsystem` step was executed. -/
structure RunResult where
  events : List Event
  propagated : Option Exn
  finishRan : Bool
deriving DecidableEq, Repr

/-- The session reaches its terminal FINISHED state exactly when `_run`
runs to completion; an exception escaping `_run` aborts the session's
lifecycle before finalization. -/
def RunResult.reachedFinished (r : RunResult) : Bool :=
  r.propagated.isNone

/-- `SubsystemHandler._run` (server.py lines 319-330), step by step:

```
try:
    self.__transport._log(DEBUG, 'Starting handler for subsystem %s' % name)
    self.start_subsystem(name, transport, channel)
except Exception, e:
    self.__transport._log(ERROR, 'Exception in subsystem handler ...')
    self.__transport._log(ERROR, util.tb_strings())
try:
    self.finish_subsystem()
except:
    pass
```

The first `try` protects the DEBUG log and the body; an exception raised by
either is caught and answered with two ERROR log calls.  An exception
raised by one of those ERROR log calls is not protected by any handler: it
escapes `_run` and the second `try` statement is never reached.  The second
`try` swallows every exception of `finish_subsystem`. -/
def SubsystemHandler.run (t : Transport) (h : SubsystemHandler) : RunResult :=
  let dbg := t.logCall LogLevel.DEBUG (startMsg h.name)
  let tryEvents :=
    match dbg.2 with
    | some _ => dbg.1
    | none => dbg.1 ++ h.body.events
  let tryExn :=
    match dbg.2 with
    | some e => some e
    | none => h.body.exn
  match tryExn with
  | none =>
      { events := tryEvents ++ h.finishEvents
        propagated := none
        finishRan := true }
  | some e =>
      let err1 := t.logCall LogLevel.ERROR (errMsg h.name e)
      match err1.2 with
      | some e2 =>
          { events := tryEvents ++ err1.1
            propagated := some e2
            finishRan := false }
      | none =>
          let err2 := t.logCall LogLevel.ERROR tb_strings
          match err2.2 with
          | some e2 =>
              { events := tryEvents ++ err1.1 ++ err2.1
                propagated := some e2
                finishRan := false }
          | none =>
              { events := tryEvents ++ err1.1 ++ err2.1 ++ h.finishEvents
                propagated := none
                finishRan := true }

/-- A subsystem registration held by the transport's registry: the handler
factory's bound positional and keyword construction arguments (the factory
itself is identified by the registration entry; argument values are opaque
and modelled as strings). -/
structure Registration where
  largs : List String
  kwargs : List (String × String)
deriving DecidableEq, Repr

/-- Record of one handler construction
`handler_class(channel, name, *larg, **kwarg)` (server.py line 255):
exactly the arguments passed to the factory. -/
structure HandlerCtor where
  chan : ChannelId
  name : String
  largs : List String
  kwargs : List (String × String)
deriving DecidableEq, Repr

/-- What a call to the default `check_channel_subsystem_request` did:
its boolean return value, the handler constructions it performed, and the
number of `handler.start()` calls it made. -/
structure SubsysDecision where
  result : Bool
  constructed : List HandlerCtor
  started : Nat
deriving DecidableEq, Repr

/-- Fault behaviour of the external calls made by
`check_channel_subsystem_request`: the registry lookup
(`channel.get_transport()._get_subsystem_handler(name)`), the handler
factory call, and `handler.start()` may each raise.  `none` everywhere is
the normal, non-faulting environment. -/
structure SubsysEnv where
  lookupExn : Option Exn := none
  factoryExn : Option Exn := none
  startExn : Option Exn := none
deriving DecidableEq, Repr

/-- The environment in which no external call of the decision faults. -/
def noFaultEnv : SubsysEnv := {}

/-- `ServerInterface.check_channel_subsystem_request` (server.py lines
252-257):

```
handler_class, larg, kwarg = channel.get_transport()._get_subsystem_handler(name)
if handler_class is None:
    return False
handler = handler_class(channel, name, *larg, **kwarg)
handler.start()
return True
```

The registry is `registry : String → Option Registration` (the transport
returns `(None, _, _)` for an unregistered name).  The method installs no
exception handler, so a fault in the lookup, the factory call or
`handler.start()` propagates to the caller (`Except.error`). -/
def check_channel_subsystem_request (registry : String → Option Registration)
    (env : SubsysEnv) (channel : ChannelId) (name : String) :
    Except Exn SubsysDecision :=
  match env.lookupExn with
  | some e => Except.error e
  | none =>
    match registry name with
    | none => Except.ok { result := false, constructed := [], started := 0 }
    | some reg =>
      match env.factoryExn with
      | some e => Except.error e
      | none =>
        match env.startExn with
        | some e => Except.error e
        | none =>
            Except.ok
              { result := true
                constructed :=
                  [{ chan := channel, name := name
                     largs := reg.largs, kwargs := reg.kwargs }]
                started := 1 }

/-- The events emitted on the session thread as a consequence of one
subsystem request: when the decision starts a handler, that handler's
thread runs `_run` (with body behaviour `body`, over the spec's infallible
logging sink); when no handler is started, no thread runs and no event is
emitted. -/
def requestEvents (registry : String → Option Registration)
    (channel : ChannelId) (name : String) (body : BodyBehavior) :
    List Event :=
  match check_channel_subsystem_request registry noFaultEnv channel name with
  | Except.error _ => []
  | Except.ok d =>
      if d.started = 0 then []
      else (SubsystemHandler.run okTransport
              { chan := channel, name := name, body := body }).events

/-- The session lifecycle states of the spec's state machine. -/
inductive SessionState where
  | CREATED
  | RUNNING
  | FINISHED
deriving DecidableEq, Repr

/-- The lifecycle transition relation realised by the code: `__init__`
(server.py line 314) builds the thread object with `target=self._run`
without starting it (CREATED); `handler.start()` (server.py line 256)
schedules `_run` on a new thread (CREATED → RUNNING); `_run` returning ends
the thread (RUNNING → FINISHED); nothing restarts a finished thread. -/
def sessionStep : SessionState → Option SessionState
  | SessionState.CREATED => some SessionState.RUNNING
  | SessionState.RUNNING => some SessionState.FINISHED
  | SessionState.FINISHED => none

/-! ### Helper lemmas -/

theorem closeCount_append (a b : List Event) (c : ChannelId) :
    closeCount (a ++ b) c = closeCount a c + closeCount b c := by
  simp [closeCount, List.filter_append]

theorem closeCount_log (lvl : LogLevel) (m : String) (c : ChannelId) :
    closeCount [Event.log lvl m] c = 0 := by
  simp [closeCount]

theorem closeCount_close_self (c : ChannelId) :
    closeCount [Event.close c] c = 1 := by
  simp [closeCount]

/-- A concrete registry holding exactly one registration, under the
name "sftp". -/
def regSftp : String → Option Registration := fun n =>
  if n = "sftp" then some { largs := ["arg1"], kwargs := [("key", "val")] }
  else none

/-! ### Claim theorems -/

/-- C5: for every username, password and key, the default
`ServerInterface` returns `AUTH_FAILED` from `check_auth_none`,
`check_auth_password` and `check_auth_publickey`, and for every kind and
channel id the default `check_channel_request` returns
`OPEN_FAILED_ADMINISTRATIVELY_PROHIBITED`. -/
theorem default_decisions_deny (username password : String) (key : PKey)
    (kind : String) (chanid : ChannelId) :
    ServerInterface.check_auth_none username = AuthOutcome.AUTH_FAILED ∧
    ServerInterface.check_auth_password username password =
      AuthOutcome.AUTH_FAILED ∧
    ServerInterface.check_auth_publickey username key =
      AuthOutcome.AUTH_FAILED ∧
    ServerInterface.check_channel_request kind chanid =
      ChannelOpenOutcome.OPEN_FAILED_ADMINISTRATIVELY_PROHIBITED :=
  ⟨rfl, rfl, rfl, rfl⟩

/-- C6: for every username, the default `get_allowed_auths` returns
exactly the string "password". -/
theorem default_allowed_auths_is_password (username : String) :
    ServerInterface.get_allowed_auths username = "password" :=
  rfl

/-- C9: every default decision method of `ServerInterface` is a constant
function of its arguments: for any two argument tuples the returned value
is identical, so the default outcome carries no information about the
supplied username, password or key. -/
theorem default_decisions_constant (k₁ k₂ : String) (c₁ c₂ : ChannelId)
    (u₁ u₂ p₁ p₂ : String) (key₁ key₂ : PKey) (ch₁ ch₂ : ChannelId)
    (t₁ t₂ : String) (w₁ w₂ h₁ h₂ pw₁ pw₂ ph₁ ph₂ : Nat) (m₁ m₂ : String) :
    ServerInterface.check_channel_request k₁ c₁ =
      ServerInterface.check_channel_request k₂ c₂ ∧
    ServerInterface.get_allowed_auths u₁ =
      ServerInterface.get_allowed_auths u₂ ∧
    ServerInterface.check_auth_none u₁ =
      ServerInterface.check_auth_none u₂ ∧
    ServerInterface.check_auth_password u₁ p₁ =
      ServerInterface.check_auth_password u₂ p₂ ∧
    ServerInterface.check_auth_publickey u₁ key₁ =
      ServerInterface.check_auth_publickey u₂ key₂ ∧
    ServerInterface.check_channel_pty_request ch₁ t₁ w₁ h₁ pw₁ ph₁ m₁ =
      ServerInterface.check_channel_pty_request ch₂ t₂ w₂ h₂ pw₂ ph₂ m₂ ∧
    ServerInterface.check_channel_shell_request ch₁ =
      ServerInterface.check_channel_shell_request ch₂ ∧
    ServerInterface.check_channel_window_change_request ch₁ w₁ h₁ pw₁ ph₁ =
      ServerInterface.check_channel_window_change_request ch₂ w₂ h₂ pw₂ ph₂ :=
  ⟨rfl, rfl, rfl, rfl, rfl, rfl, rfl, rfl⟩

/-- C4: with no faulting external call, the default
`check_channel_subsystem_request` returns `false` when the registry lookup
yields no handler for the name — constructing no handler, starting no
task, and emitting no event at all (in particular no "Starting handler"
log entry); and when a handler is registered it constructs exactly one
handler from the channel, the name and the registered positional and
keyword arguments, starts it exactly once, and returns `true`. -/
theorem subsystem_request_decision (registry : String → Option Registration)
    (channel : ChannelId) (name : String) (body : BodyBehavior) :
    (registry name = none →
      check_channel_subsystem_request registry noFaultEnv channel name =
        Except.ok { result := false, constructed := [], started := 0 } ∧
      requestEvents registry channel name body = []) ∧
    (∀ reg, registry name = some reg →
      check_channel_subsystem_request registry noFaultEnv channel name =
        Except.ok
          { result := true
            constructed :=
              [{ chan := channel, name := name
                 largs := reg.largs, kwargs := reg.kwargs }]
            started := 1 }) := by
  constructor
  · intro h
    refine ⟨?_, ?_⟩
    · simp [check_channel_subsystem_request, noFaultEnv, h]
    · simp [requestEvents, check_channel_subsystem_request, noFaultEnv, h]
  · intro reg h
    simp [check_channel_subsystem_request, noFaultEnv, h]

/-- Witness for C4 at the concrete registry `regSftp`: the unregistered
name "xyz" is refused with no construction, no start and no event; the
registered name "sftp" yields one construction with the registered
arguments, one start, and `true`. -/
theorem subsystem_request_decision_witness :
    (check_channel_subsystem_request regSftp noFaultEnv 3 "xyz" =
      Except.ok { result := false, constructed := [], started := 0 } ∧
     requestEvents regSftp 3 "xyz" { events := [], exn := none } = []) ∧
    check_channel_subsystem_request regSftp noFaultEnv 3 "sftp" =
      Except.ok
        { result := true
          constructed :=
            [{ chan := 3, name := "sftp"
               largs := ["arg1"], kwargs := [("key", "val")] }]
          started := 1 } :=
  ⟨(subsystem_request_decision regSftp 3 "xyz"
      { events := [], exn := none }).1 (by simp [regSftp]),
   (subsystem_request_decision regSftp 3 "sftp"
      { events := [], exn := none }).2
     { largs := ["arg1"], kwargs := [("key", "val")] } (by simp [regSftp])⟩

/-- C8: `check_channel_subsystem_request` installs no exception handler,
so a fault in the registry lookup, the handler factory call, or
`handler.start()` propagates to the caller on the control path instead of
being caught or converted into a boolean decision. -/
theorem subsystem_request_fault_propagates
    (registry : String → Option Registration) (env : SubsysEnv)
    (channel : ChannelId) (name : String) (e : Exn) :
    (env.lookupExn = some e →
      check_channel_subsystem_request registry env channel name =
        Except.error e) ∧
    (∀ reg, env.lookupExn = none → registry name = some reg →
      env.factoryExn = some e →
      check_channel_subsystem_request registry env channel name =
        Except.error e) ∧
    (∀ reg, env.lookupExn = none → registry name = some reg →
      env.factoryExn = none → env.startExn = some e →
      check_channel_subsystem_request registry env channel name =
        Except.error e) := by
  refine ⟨?_, ?_, ?_⟩
  · intro h
    simp [check_channel_subsystem_request, h]
  · intro reg h₁ h₂ h₃
    simp [check_channel_subsystem_request, h₁, h₂, h₃]
  · intro reg h₁ h₂ h₃ h₄
    simp [check_channel_subsystem_request, h₁, h₂, h₃, h₄]

/-- Witness for C8: each of the three faulting external calls makes the
decision raise at a concrete registry, channel and name. -/
theorem subsystem_request_fault_propagates_witness :
    check_channel_subsystem_request regSftp
      { lookupExn := some "lookup boom" } 3 "sftp" =
      Except.error "lookup boom" ∧
    check_channel_subsystem_request regSftp
      { factoryExn := some "factory boom" } 3 "sftp" =
      Except.error "factory boom" ∧
    check_channel_subsystem_request regSftp
      { startExn := some "start boom" } 3 "sftp" =
      Except.error "start boom" :=
  ⟨(subsystem_request_fault_propagates regSftp
      { lookupExn := some "lookup boom" } 3 "sftp" "lookup boom").1 rfl,
   (subsystem_request_fault_propagates regSftp
      { factoryExn := some "factory boom" } 3 "sftp" "factory boom").2.1
     { largs := ["arg1"], kwargs := [("key", "val")] }
     rfl (by simp [regSftp]) rfl,
   (subsystem_request_fault_propagates regSftp
      { startExn := some "start boom" } 3 "sftp" "start boom").2.2
     { largs := ["arg1"], kwargs := [("key", "val")] }
     rfl (by simp [regSftp]) rfl rfl⟩

/-- C7: the session lifecycle is the state machine
CREATED → RUNNING → FINISHED: the only transition out of CREATED is to
RUNNING (no transition skips RUNNING), RUNNING goes only to FINISHED,
FINISHED is terminal, and RUNNING is entered only from CREATED (never
re-entered).  The transition to RUNNING is triggered immediately upon
construction: within `check_channel_subsystem_request`, every constructed
handler is started (started count equals constructed count), so no handler
is left in CREATED when the decision returns. -/
theorem session_state_machine :
    sessionStep SessionState.CREATED = some SessionState.RUNNING ∧
    sessionStep SessionState.RUNNING = some SessionState.FINISHED ∧
    sessionStep SessionState.FINISHED = none ∧
    (∀ s, sessionStep s = some SessionState.RUNNING →
      s = SessionState.CREATED) ∧
    (∀ s, sessionStep s ≠ some SessionState.CREATED) ∧
    (∀ registry channel name d,
      check_channel_subsystem_request registry noFaultEnv channel name =
        Except.ok d →
      d.started = d.constructed.length) := by
  refine ⟨rfl, rfl, rfl, ?_, ?_, ?_⟩
  · intro s h
    cases s <;> simp [sessionStep] at h ⊢
  · intro s
    cases s <;> simp [sessionStep]
  · intro registry channel name d h
    cases hr : registry name <;>
      simp [check_channel_subsystem_request, noFaultEnv, hr] at h <;>
      simp [← h]

/-- Witness for C7: the transition facts at each concrete state, and the
started-equals-constructed fact at a concrete successful decision. -/
theorem session_state_machine_witness :
    SessionState.CREATED = SessionState.CREATED ∧
    (¬ sessionStep SessionState.FINISHED = some SessionState.CREATED) ∧
    (SubsysDecision.started
        { result := true
          constructed :=
            [{ chan := 3, name := "sftp"
               largs := ["arg1"], kwargs := [("key", "val")] }]
          started := 1 } =
      (SubsysDecision.constructed
        { result := true
          constructed :=
            [{ chan := 3, name := "sftp"
               largs := ["arg1"], kwargs := [("key", "val")] }]
          started := 1 }).length) := by
  have h := session_state_machine
  refine ⟨h.2.2.2.1 SessionState.CREATED rfl, ?_, ?_⟩
  · exact h.2.2.2.2.1 SessionState.FINISHED
  · exact h.2.2.2.2.2 regSftp 3 "sftp" _
      (by simp [check_channel_subsystem_request, noFaultEnv, regSftp])

/-- A transport whose `_log` call raises at ERROR level and succeeds at
DEBUG level. -/
def badLogTransport : Transport :=
  { logExn := fun lvl _ =>
      match lvl with
      | LogLevel.ERROR => some "log failure"
      | LogLevel.DEBUG => none }

/-- C1: over the spec's infallible logging sink, for every
`start_subsystem` body — raising an exception or returning normally — that
does not itself close the bound channel, a handler with the default
`finish_subsystem` emits exactly one `channel.close()` on the bound
channel, executes its finalization, and reaches the terminal FINISHED
state. -/
theorem run_closes_channel_once_and_finishes (chan : ChannelId)
    (name : String) (body : BodyBehavior)
    (hb : closeCount body.events chan = 0) :
    closeCount (SubsystemHandler.run okTransport
      { chan := chan, name := name, body := body }).events chan = 1 ∧
    (SubsystemHandler.run okTransport
      { chan := chan, name := name, body := body }).finishRan = true ∧
    (SubsystemHandler.run okTransport
      { chan := chan, name := name, body := body }).reachedFinished = true := by
  have hb' :
      (body.events.filter (fun e => e = Event.close chan)).length = 0 := hb
  cases hexn : body.exn <;>
    simp [SubsystemHandler.run, Transport.logCall, okTransport,
      RunResult.reachedFinished, hexn, closeCount, List.filter_append, hb']

/-- Witness for C1: a body that raises "boom" without touching the
channel, and a body that returns normally, each yield exactly one close of
channel 0, a finalization run, and FINISHED. -/
theorem run_closes_channel_once_witness :
    (closeCount ([Event.log LogLevel.DEBUG "inside"] : List Event) 0 = 0 ∧
     closeCount (SubsystemHandler.run okTransport
       { chan := 0, name := "sftp"
         body := { events := [Event.log LogLevel.DEBUG "inside"]
                   exn := some "boom" } }).events 0 = 1 ∧
     (SubsystemHandler.run okTransport
       { chan := 0, name := "sftp"
         body := { events := [Event.log LogLevel.DEBUG "inside"]
                   exn := some "boom" } }).finishRan = true ∧
     (SubsystemHandler.run okTransport
       { chan := 0, name := "sftp"
         body := { events := [Event.log LogLevel.DEBUG "inside"]
                   exn := some "boom" } }).reachedFinished = true) ∧
    (closeCount ([] : List Event) 0 = 0 ∧
     closeCount (SubsystemHandler.run okTransport
       { chan := 0, name := "sftp"
         body := { events := [], exn := none } }).events 0 = 1 ∧
     (SubsystemHandler.run okTransport
       { chan := 0, name := "sftp"
         body := { events := [], exn := none } }).finishRan = true ∧
     (SubsystemHandler.run okTransport
       { chan := 0, name := "sftp"
         body := { events := [], exn := none } }).reachedFinished = true) :=
  ⟨⟨by simp [closeCount],
    run_closes_channel_once_and_finishes 0 "sftp"
      { events := [Event.log LogLevel.DEBUG "inside"], exn := some "boom" }
      (by simp [closeCount])⟩,
   ⟨rfl,
    run_closes_channel_once_and_finishes 0 "sftp"
      { events := [], exn := none } rfl⟩⟩

/-- C2 counterexample: a handler whose body raises "boom" on a transport
whose ERROR-level `_log` itself raises.  The exception raised by the
logging performed at the session boundary escapes `_run` before the second
`try` statement is reached: `finish_subsystem` is not executed, the log
fault propagates out of the session's run, and the channel is never
closed — refuting the claim that finalization runs on every such exit
path. -/
theorem run_skips_finish_when_error_log_faults :
    (SubsystemHandler.run badLogTransport
      { chan := 0, name := "sftp"
        body := { events := [], exn := some "boom" } }).finishRan = false ∧
    (SubsystemHandler.run badLogTransport
      { chan := 0, name := "sftp"
        body := { events := [], exn := some "boom" } }).propagated =
      some "log failure" ∧
    closeCount (SubsystemHandler.run badLogTransport
      { chan := 0, name := "sftp"
        body := { events := [], exn := some "boom" } }).events 0 = 0 :=
  ⟨rfl, rfl, rfl⟩

/-- C2 (amended): on every exit path of `_run` over a transport whose
ERROR-level logging does not fault — normal return of `start_subsystem`,
any fault raised by it, and any fault raised by the DEBUG logging at the
session boundary — the finalization step `finish_subsystem` is executed,
and any fault raised inside `finish_subsystem` itself (the handler's
`finishExn` is arbitrary here) is swallowed and never escapes the
session's run. -/
theorem run_always_finishes_when_error_log_ok (t : Transport)
    (h : SubsystemHandler)
    (hERR : ∀ msg, t.logExn LogLevel.ERROR msg = none) :
    (SubsystemHandler.run t h).finishRan = true ∧
    (SubsystemHandler.run t h).propagated = none := by
  cases hdbg : t.logExn LogLevel.DEBUG (startMsg h.name) <;>
    cases hexn : h.body.exn <;>
      simp [SubsystemHandler.run, Transport.logCall, hdbg, hexn, hERR]

/-- Witness for the amended C2: a transport whose DEBUG log faults but
whose ERROR log succeeds still executes finalization and propagates
nothing, for a body that would raise. -/
theorem run_always_finishes_witness :
    (SubsystemHandler.run
      { logExn := fun lvl _ =>
          match lvl with
          | LogLevel.DEBUG => some "debug log failure"
          | LogLevel.ERROR => none }
      { chan := 0, name := "sftp"
        body := { events := [], exn := some "boom" }
        finishEvents := [], finishExn := some "finish boom" }).finishRan =
      true ∧
    (SubsystemHandler.run
      { logExn := fun lvl _ =>
          match lvl with
          | LogLevel.DEBUG => some "debug log failure"
          | LogLevel.ERROR => none }
      { chan := 0, name := "sftp"
        body := { events := [], exn := some "boom" }
        finishEvents := [], finishExn := some "finish boom" }).propagated =
      none :=
  run_always_finishes_when_error_log_ok
    { logExn := fun lvl _ =>
        match lvl with
        | LogLevel.DEBUG => some "debug log failure"
        | LogLevel.ERROR => none }
    { chan := 0, name := "sftp"
      body := { events := [], exn := some "boom" }
      finishEvents := [], finishExn := some "finish boom" }
    (fun _ => rfl)

/-- C3: over a transport whose logging sink does not fault (the spec's
model of `transport.log`), every exception `e` raised by the
`start_subsystem` body of a handler — whatever events the body emitted and
whatever its `finish_subsystem` override does — is caught inside `_run`:
nothing propagates out of the session's run, and the trace contains the
ERROR-level entry built from the subsystem name and the exception's
description. -/
theorem body_exception_caught_and_logged (t : Transport) (chan : ChannelId)
    (name : String) (evs : List Event) (e : Exn) (fe : List Event)
    (fx : Option Exn)
    (hlog : ∀ lvl msg, t.logExn lvl msg = none) :
    (SubsystemHandler.run t
      { chan := chan, name := name
        body := { events := evs, exn := some e }
        finishEvents := fe, finishExn := fx }).propagated = none ∧
    Event.log LogLevel.ERROR (errMsg name e) ∈
      (SubsystemHandler.run t
        { chan := chan, name := name
          body := { events := evs, exn := some e }
          finishEvents := fe, finishExn := fx }).events := by
  simp [SubsystemHandler.run, Transport.logCall, hlog]

/-- Witness for C3: a body raising "boom" under `okTransport` propagates
nothing and its trace contains the ERROR entry naming "sftp" and "boom". -/
theorem body_exception_caught_witness :
    (SubsystemHandler.run okTransport
      { chan := 0, name := "sftp"
        body := { events := [], exn := some "boom" }
        finishEvents := [Event.close 0], finishExn := none }).propagated =
      none ∧
    Event.log LogLevel.ERROR (errMsg "sftp" "boom") ∈
      (SubsystemHandler.run okTransport
        { chan := 0, name := "sftp"
          body := { events := [], exn := some "boom" }
          finishEvents := [Event.close 0], finishExn := none }).events :=
  body_exception_caught_and_logged okTransport 0 "sftp" [] "boom"
    [Event.close 0] none (fun _ _ => rfl)

/-- C10: over the spec's infallible logging sink, the full trace of `_run`
is characterised: the DEBUG entry "Starting handler for subsystem name" is
the first event, preceding everything the body emits; when the body
returns normally the finalization events follow the body's directly; when
the body raises `e`, exactly the two ERROR entries — first the one built
from the subsystem name and the exception description, then the one
carrying the traceback text — sit between the body's events and the
finalization events. -/
theorem run_trace_shape (h : SubsystemHandler) :
    (h.body.exn = none →
      (SubsystemHandler.run okTransport h).events =
        Event.log LogLevel.DEBUG (startMsg h.name) ::
          (h.body.events ++ h.finishEvents)) ∧
    (∀ e, h.body.exn = some e →
      (SubsystemHandler.run okTransport h).events =
        Event.log LogLevel.DEBUG (startMsg h.name) ::
          (h.body.events ++
            [Event.log LogLevel.ERROR (errMsg h.name e),
             Event.log LogLevel.ERROR tb_strings] ++ h.finishEvents)) := by
  constructor
  · intro hx
    simp [SubsystemHandler.run, Transport.logCall, okTransport, hx]
  · intro e hx
    simp [SubsystemHandler.run, Transport.logCall, okTransport, hx]

/-- Witness for C10: the exact traces at a concrete handler, for a normal
return and for a body raising "boom". -/
theorem run_trace_shape_witness :
    (SubsystemHandler.run okTransport
      { chan := 0, name := "sftp"
        body := { events := [], exn := none } }).events =
      Event.log LogLevel.DEBUG (startMsg "sftp") ::
        (([] : List Event) ++ [Event.close 0]) ∧
    (SubsystemHandler.run okTransport
      { chan := 0, name := "sftp"
        body := { events := [], exn := some "boom" } }).events =
      Event.log LogLevel.DEBUG (startMsg "sftp") ::
        (([] : List Event) ++
          [Event.log LogLevel.ERROR (errMsg "sftp" "boom"),
           Event.log LogLevel.ERROR tb_strings] ++ [Event.close 0]) :=
  ⟨(run_trace_shape
      { chan := 0, name := "sftp"
        body := { events := [], exn := none } }).1 rfl,
   (run_trace_shape
      { chan := 0, name := "sftp"
        body := { events := [], exn := some "boom" } }).2 "boom" rfl⟩

end Paramiko
